import Mathlib

/-!
Verification of the real-time session and connection controller of
`src/main.py` (the `ws_endpoint` dispatch loop and its helpers).

The embedding models time as integer seconds (`Int`): `time.time()` is a
clock value `now`, and Python `int(...)` truncation is the identity on this
discrete clock.  The external GPT call (`ask_gpt` wrapped in
`asyncio.to_thread`) is modelled by an oracle argument `gpt : Option String`:
`some a` is a successful reply `a`, `none` is a raised exception.  One
iteration of the `while True` receive/act/reply loop body is the function
`step`; its result carries the mutated session, the ordered list of frames
sent over the websocket, the `log_event` tags recorded, and whether the
server closed the connection (`await ws.close()` followed by `break`).
-/

namespace Spokesperson

/-- `MAX_QUESTIONS` from src/main.py line 24. -/
def MAX_QUESTIONS : Nat := 3

/-- `TIME_LIMIT_SECONDS = 3 * 60` from src/main.py line 25. -/
def TIME_LIMIT_SECONDS : Int := 3 * 60

/-- The `phase` field of a session: one of `"qa" | "followup" | "done"`
(src/main.py line 108). -/
inductive Phase where
  | qa
  | followup
  | done
deriving DecidableEq

/-- Role tag of a history turn (`"user"` or `"assistant"`). -/
inductive Role where
  | user
  | assistant
deriving DecidableEq

/-- One role-tagged turn of the conversation history. -/
structure ChatTurn where
  role : Role
  content : String
deriving DecidableEq

/-- Session state stored in `SESSIONS` (src/main.py lines 104-110). -/
structure Session where
  start_ts : Int
  count : Nat
  phase : Phase
  history : List ChatTurn
deriving DecidableEq

/-- `get_session` for a fresh sid (src/main.py lines 112-122): phase qa,
count 0, start = now, empty history. -/
def get_session (now : Int) : Session :=
  { start_ts := now, count := 0, phase := Phase.qa, history := [] }

/-- `remaining_time` (src/main.py lines 124-125):
`max(0, int(TIME_LIMIT_SECONDS - (time.time() - s["start_ts"])))`. -/
def remaining_time (now : Int) (s : Session) : Int :=
  max 0 (TIME_LIMIT_SECONDS - (now - s.start_ts))

/-- Inbound message envelopes, discriminated on `payload.get("type")`.
A frame that fails `json.loads` becomes `{"type": "unknown", "raw": raw}`
(src/main.py lines 1361-1364), hence the `unknown` constructor.  A
`question` envelope has NO branch of its own in the dispatch loop: it is
handled by the final `else` exactly like `unknown`.  Text fields are
`Option String` because `payload.get("text", "")` defaults an absent field
to the empty string. -/
inductive Inbound where
  | hello
  | user_message (text : Option String)
  | followup_answer (text : Option String)
  | question (qid : Option String)
  | exit
  | unknown (raw : String)
deriving DecidableEq

/-- Outbound frames: `ai` reply text, `state` snapshot, `typing` indicator
(the wire field `on` is named `b` here because `on` is reserved in Lean). -/
inductive Outbound where
  | ai (text : String)
  | state (phase : Phase) (remainingQuestions : Nat) (remainingSeconds : Int)
  | typing (b : Bool)
deriving DecidableEq

/-- Greeting sent on `hello` (src/main.py lines 1382-1386). -/
def FIRST_MSG : String :=
  "안녕하세요. 저는 본 사건에 대해 회사의 공식 입장을 전달하는 AI 대변인 Eline입니다.\n\n먼저 이번 개인정보 유출 사고로 불편과 걱정을 드린 점 사과드립니다.\n\n추천 질문을 참고해 궁금하신 내용을 직접 타이핑하거나 클릭하여 입력해 주세요. (최대 3회 / 총 3분)"

/-- Terminal notice on deadline expiry (src/main.py line 1375). -/
def TIME_OVER_MSG : String := "대화 시간이 종료되었습니다. 참여해주셔서 감사합니다."

/-- Rejection notice for a `user_message` outside qa (src/main.py line 1395). -/
def BLOCKED_PHASE_MSG : String := "현재 단계에서는 이 입력을 받을 수 없습니다."

/-- Notice when the quota is already exhausted (src/main.py line 1406). -/
def LIMIT_MSG : String := "질문 횟수(3회)가 모두 사용되었습니다. 마지막으로 추가로 하고 싶은 말씀이 있나요?"

/-- Fixed apology substituted when `ask_gpt` raises (src/main.py line 1438). -/
def GPT_FAIL_MSG : String := "현재 응답 생성 과정에서 오류가 발생했습니다. 잠시 후 다시 시도해 주세요."

/-- Follow-up prompt on the qa → followup transition (src/main.py line 1460). -/
def FOLLOWUP_PROMPT_MSG : String := "마지막으로 추가로 하고 싶은 말씀이 있나요? (이 답변은 별도로 저장됩니다.)"

/-- Closing message after the follow-up answer (src/main.py line 1484). -/
def CLOSING_MSG : String := "감사합니다. AI 대변인과의 대화가 종료되었습니다."

/-- Generic reply of the final `else` branch (src/main.py line 1500). -/
def UNKNOWN_MSG : String := "알 수 없는 요청입니다."

/-- `send_state` (src/main.py lines 1350-1356).  `remainingQuestions` is
`max(0, MAX_QUESTIONS - s["count"])`; truncated `Nat` subtraction is exactly
that floor at zero. -/
def send_state (now : Int) (s : Session) : Outbound :=
  Outbound.state s.phase (MAX_QUESTIONS - s.count) (remaining_time now s)

/-- Result of one iteration of the dispatch loop body: mutated session,
outbound frames in send order, `log_event` tags in order, and whether the
server closed the websocket and left the loop. -/
structure StepResult where
  session : Session
  outputs : List Outbound
  logs : List String
  closed : Bool
deriving DecidableEq

/-- Python slice `t[:n]`: the first `n` characters of `t`. -/
def truncate (n : Nat) (t : String) : String := String.mk (t.data.take n)

/-- Python `str.strip()`: remove leading and trailing whitespace. -/
def pyStrip (t : String) : String :=
  String.mk (((t.data.dropWhile Char.isWhitespace).reverse.dropWhile
    Char.isWhitespace).reverse)

/-- The `user_message` branch (src/main.py lines 1390-1461). -/
def handleUserMessage (now : Int) (gpt : Option String) (s : Session)
    (txt : Option String) : StepResult :=
  if s.phase ≠ Phase.qa then
    { session := s,
      outputs := [Outbound.ai BLOCKED_PHASE_MSG, send_state now s],
      logs := ["blocked_message_phase"],
      closed := false }
  else if MAX_QUESTIONS ≤ s.count then
    let s1 := { s with phase := Phase.followup }
    { session := s1,
      outputs := [send_state now s1, Outbound.ai LIMIT_MSG],
      logs := ["blocked_message_limit"],
      closed := false }
  else
    let user_text := pyStrip (truncate 2000 (txt.getD ""))
    if user_text = "" then
      { session := s, outputs := [send_state now s], logs := [], closed := false }
    else
      -- try/except around `ask_gpt`: the user turn is appended before the
      -- call, so it stays in the history even when the call raises; the
      -- except block sends one extra `typing:false` and logs `gpt_error`.
      let hist1 := s.history ++ [⟨Role.user, user_text⟩]
      let answer := gpt.getD GPT_FAIL_MSG
      let hist2 := match gpt with
        | some a => hist1 ++ [⟨Role.assistant, a⟩]
        | none => hist1
      let failOuts : List Outbound := match gpt with
        | some _ => []
        | none => [Outbound.typing false]
      let failLogs : List String := match gpt with
        | some _ => []
        | none => ["gpt_error"]
      let s2 : Session := { s with history := hist2, count := s.count + 1 }
      let outs1 := [Outbound.typing true] ++ failOuts ++
        [Outbound.typing false, Outbound.ai answer, send_state now s2]
      let logs1 := ["user_message"] ++ failLogs ++ ["count_inc"]
      if MAX_QUESTIONS ≤ s2.count ∧ s2.phase = Phase.qa then
        let s3 := { s2 with phase := Phase.followup }
        { session := s3,
          outputs := outs1 ++ [send_state now s3, Outbound.ai FOLLOWUP_PROMPT_MSG],
          logs := logs1 ++ ["enter_followup"],
          closed := false }
      else
        { session := s2, outputs := outs1, logs := logs1, closed := false }

/-- The `followup_answer` branch (src/main.py lines 1463-1487). -/
def handleFollowup (now : Int) (s : Session) (txt : Option String) : StepResult :=
  if s.phase ≠ Phase.followup then
    { session := s,
      outputs := [send_state now s],
      logs := ["blocked_followup_phase"],
      closed := false }
  else
    let text := pyStrip (truncate 4000 (txt.getD ""))
    if text = "" then
      { session := s, outputs := [send_state now s], logs := [], closed := false }
    else
      let s1 := { s with phase := Phase.done }
      { session := s1,
        outputs := [send_state now s1, Outbound.ai CLOSING_MSG],
        logs := ["followup_answer", "done"],
        closed := true }

/-- The final `else` branch (src/main.py lines 1496-1502), reached by any
envelope with no branch of its own — in particular every `question`. -/
def handleOther (now : Int) (s : Session) : StepResult :=
  { session := s,
    outputs := [Outbound.ai UNKNOWN_MSG, send_state now s],
    logs := ["unknown_input"],
    closed := false }

/-- One iteration of the `while True` dispatch loop body
(src/main.py lines 1359-1502): server-side deadline check first, then the
branch on the envelope tag. -/
def step (now : Int) (gpt : Option String) (s : Session) (m : Inbound) :
    StepResult :=
  if remaining_time now s ≤ 0 ∧ s.phase ≠ Phase.done then
    let s1 := { s with phase := Phase.done }
    { session := s1,
      outputs := [send_state now s1, Outbound.ai TIME_OVER_MSG],
      logs := ["time_over"],
      closed := true }
  else
    match m with
    | Inbound.hello =>
        { session := s,
          outputs := [Outbound.ai FIRST_MSG, send_state now s],
          logs := ["hello"],
          closed := false }
    | Inbound.user_message txt => handleUserMessage now gpt s txt
    | Inbound.followup_answer txt => handleFollowup now s txt
    | Inbound.exit =>
        let s1 := { s with phase := Phase.done }
        { session := s1,
          outputs := [send_state now s1],
          logs := ["exit"],
          closed := true }
    | Inbound.question _ => handleOther now s
    | Inbound.unknown _ => handleOther now s

/-- Ordering of phases along the lifecycle qa → followup → done. -/
def phaseRank : Phase → Nat
  | Phase.qa => 0
  | Phase.followup => 1
  | Phase.done => 2

/-- Session states reachable from creation by processing inbound messages. -/
inductive Reaches : Session → Prop where
  | init (t : Int) : Reaches (get_session t)
  | next (now : Int) (gpt : Option String) (m : Inbound) (s : Session) :
      Reaches s → Reaches (step now gpt s m).session

/-- Recognizer for `state` snapshot frames. -/
def isState : Outbound → Bool
  | Outbound.state _ _ _ => true
  | _ => false

lemma phase_cases (p : Phase) :
    p = Phase.qa ∨ p = Phase.followup ∨ p = Phase.done := by
  cases p <;> simp

lemma phaseRank_le_two (p : Phase) : phaseRank p ≤ 2 := by
  cases p <;> simp [phaseRank]

lemma handleUserMessage_phase_mono (now : Int) (gpt : Option String)
    (s : Session) (txt : Option String) :
    phaseRank s.phase ≤ phaseRank (handleUserMessage now gpt s txt).session.phase := by
  cases gpt <;> simp only [handleUserMessage] <;> split_ifs <;>
    simp_all [phaseRank]

lemma handleFollowup_phase_mono (now : Int) (s : Session) (txt : Option String) :
    phaseRank s.phase ≤ phaseRank (handleFollowup now s txt).session.phase := by
  simp only [handleFollowup]
  split_ifs <;> simp_all [phaseRank]

lemma handleUserMessage_count_le (now : Int) (gpt : Option String)
    (s : Session) (txt : Option String) (h : s.count ≤ MAX_QUESTIONS) :
    (handleUserMessage now gpt s txt).session.count ≤ MAX_QUESTIONS := by
  cases gpt <;> simp only [handleUserMessage] <;> split_ifs <;>
    simp_all <;> omega

lemma step_count_le (now : Int) (gpt : Option String) (s : Session) (m : Inbound)
    (h : s.count ≤ MAX_QUESTIONS) :
    (step now gpt s m).session.count ≤ MAX_QUESTIONS := by
  unfold step
  split
  · exact h
  · cases m with
    | hello => exact h
    | user_message txt => exact handleUserMessage_count_le now gpt s txt h
    | followup_answer txt =>
        simp only [handleFollowup]
        split_ifs <;> simp_all
    | question qid => exact h
    | exit => exact h
    | unknown raw => exact h

/-- C1: for every session the phase is one of qa, followup, done, and every
iteration of the dispatch loop body can only keep the phase or advance it
along qa → followup → done, never backward. -/
theorem step_phase_monotone (now : Int) (gpt : Option String)
    (s : Session) (m : Inbound) :
    phaseRank s.phase ≤ phaseRank (step now gpt s m).session.phase ∧
    ((step now gpt s m).session.phase = Phase.qa ∨
     (step now gpt s m).session.phase = Phase.followup ∨
     (step now gpt s m).session.phase = Phase.done) := by
  refine ⟨?_, phase_cases _⟩
  unfold step
  split
  · exact le_trans (phaseRank_le_two _) (by simp [phaseRank])
  · cases m with
    | hello => exact le_refl _
    | user_message txt => exact handleUserMessage_phase_mono now gpt s txt
    | followup_answer txt => exact handleFollowup_phase_mono now s txt
    | question qid => exact le_refl _
    | exit => exact le_trans (phaseRank_le_two _) (by simp [phaseRank])
    | unknown raw => exact le_refl _

/-- C2: the question counter starts at 0 on creation and never exceeds
MAX_QUESTIONS = 3 in any reachable session state: the only increment is
guarded by a prior check that the counter is below the maximum. -/
theorem count_never_exceeds_max :
    (∀ t : Int, (get_session t).count = 0) ∧
    (∀ s : Session, Reaches s → s.count ≤ MAX_QUESTIONS) := by
  constructor
  · intro t; rfl
  · intro s h
    induction h with
    | init t => simp [get_session]
    | next now gpt m s hs ih => exact step_count_le now gpt s m ih

/-- Witness for C2 at a concrete reachable session. -/
theorem count_never_exceeds_max_witness :
    (get_session 0).count = 0 ∧ (get_session 0).count ≤ MAX_QUESTIONS :=
  ⟨count_never_exceeds_max.1 0,
   count_never_exceeds_max.2 (get_session 0) (Reaches.init 0)⟩

/-- C5: `remaining_time` is recomputed from the clock on each call as
max(0, TIME_LIMIT_SECONDS − (now − start_ts)); it is never negative and,
for a fixed session, non-increasing as the clock advances. -/
theorem remaining_time_spec (now later : Int) (s : Session) (h : now ≤ later) :
    remaining_time now s = max 0 (TIME_LIMIT_SECONDS - (now - s.start_ts)) ∧
    0 ≤ remaining_time now s ∧
    remaining_time later s ≤ remaining_time now s := by
  refine ⟨rfl, le_max_left _ _, ?_⟩
  unfold remaining_time
  exact max_le_max (le_refl 0)
    (sub_le_sub_left (by omega : now - s.start_ts ≤ later - s.start_ts) _)

/-- Witness for C5 at clock values 0 and 1 on a fresh session. -/
theorem remaining_time_spec_witness :
    remaining_time 0 (get_session 0) =
      max 0 (TIME_LIMIT_SECONDS - (0 - (get_session 0).start_ts)) ∧
    0 ≤ remaining_time 0 (get_session 0) ∧
    remaining_time 1 (get_session 0) ≤ remaining_time 0 (get_session 0) :=
  remaining_time_spec 0 1 (get_session 0) (by decide)

lemma remaining_time_set_phase (now : Int) (s : Session) (p : Phase) :
    remaining_time now { s with phase := p } = remaining_time now s := rfl

/-- C3: a `user_message` arriving in qa with the counter already at
MAX_QUESTIONS forces the qa → followup transition before processing, emits
the transition notice after a fresh snapshot, and does not count the
message: the counter is not incremented and no generation call is made
(the result does not depend on the gpt oracle and contains no typing
events). -/
theorem quota_race_forces_followup (now : Int) (gpt : Option String)
    (s : Session) (txt : Option String)
    (hph : s.phase = Phase.qa) (hcnt : s.count = MAX_QUESTIONS)
    (hdl : 0 < remaining_time now s) :
    step now gpt s (Inbound.user_message txt) =
      { session := { s with phase := Phase.followup },
        outputs := [send_state now { s with phase := Phase.followup },
          Outbound.ai LIMIT_MSG],
        logs := ["blocked_message_limit"],
        closed := false } := by
  have h1 : ¬(remaining_time now s ≤ 0 ∧ s.phase ≠ Phase.done) :=
    fun hc => absurd hc.1 (not_le.mpr hdl)
  simp [step, handleUserMessage, h1, hph, hcnt, hdl]

/-- Witness for C3: a session with the quota already exhausted. -/
theorem quota_race_forces_followup_witness :
    step 0 none { start_ts := 0, count := 3, phase := Phase.qa, history := [] }
        (Inbound.user_message none) =
      { session := { start_ts := 0, count := 3, phase := Phase.followup, history := [] },
        outputs := [send_state 0
          { start_ts := 0, count := 3, phase := Phase.followup, history := [] },
          Outbound.ai LIMIT_MSG],
        logs := ["blocked_message_limit"],
        closed := false } :=
  quota_race_forces_followup 0 none
    { start_ts := 0, count := 3, phase := Phase.qa, history := [] }
    none rfl rfl (by decide)

/-- C4: any inbound message received after the deadline has elapsed while
the phase is not yet done makes the server set phase to done, emit a fresh
snapshot followed by the terminal notice, and close the connection,
regardless of the remaining quota (the counter is arbitrary and
unchanged). -/
theorem deadline_forces_done (now : Int) (gpt : Option String)
    (s : Session) (m : Inbound)
    (hdl : remaining_time now s ≤ 0) (hph : s.phase ≠ Phase.done) :
    step now gpt s m =
      { session := { s with phase := Phase.done },
        outputs := [Outbound.state Phase.done (MAX_QUESTIONS - s.count) 0,
          Outbound.ai TIME_OVER_MSG],
        logs := ["time_over"],
        closed := true } := by
  have h0 : remaining_time now s = 0 := le_antisymm hdl (le_max_left _ _)
  simp [step, send_state, hdl, hph, remaining_time_set_phase, h0]

/-- Witness for C4: a fresh session observed 200 seconds after creation. -/
theorem deadline_forces_done_witness :
    step 200 none (get_session 0) Inbound.hello =
      { session := { get_session 0 with phase := Phase.done },
        outputs := [Outbound.state Phase.done
          (MAX_QUESTIONS - (get_session 0).count) 0,
          Outbound.ai TIME_OVER_MSG],
        logs := ["time_over"],
        closed := true } :=
  deadline_forces_done 200 none (get_session 0) Inbound.hello
    (by decide) (by decide)

/-- C6: when the generation call raises (`gpt = none`), the reply delivered
is the fixed apology string, the failure is recorded (`gpt_error`), and the
bookkeeping is exactly that of a successful reply: the counter is
incremented, a fresh snapshot of the final session is emitted, the
qa → followup transition fires exactly when the counter reaches the
maximum, and counter and phase end up the same as they would for a
successful reply `a`. -/
theorem gpt_failure_bookkeeping (now : Int) (a : String) (s : Session)
    (txt : Option String)
    (hph : s.phase = Phase.qa) (hcnt : s.count < MAX_QUESTIONS)
    (hne : pyStrip (truncate 2000 (txt.getD "")) ≠ "")
    (hdl : 0 < remaining_time now s) :
    Outbound.ai GPT_FAIL_MSG ∈ (step now none s (Inbound.user_message txt)).outputs ∧
    "gpt_error" ∈ (step now none s (Inbound.user_message txt)).logs ∧
    (step now none s (Inbound.user_message txt)).session.count = s.count + 1 ∧
    send_state now (step now none s (Inbound.user_message txt)).session ∈
      (step now none s (Inbound.user_message txt)).outputs ∧
    (step now none s (Inbound.user_message txt)).session.phase =
      (if MAX_QUESTIONS ≤ s.count + 1 then Phase.followup else Phase.qa) ∧
    (step now (some a) s (Inbound.user_message txt)).session.count =
      (step now none s (Inbound.user_message txt)).session.count ∧
    (step now (some a) s (Inbound.user_message txt)).session.phase =
      (step now none s (Inbound.user_message txt)).session.phase := by
  have hdl2 : ¬ TIME_LIMIT_SECONDS ≤ now - s.start_ts := by
    intro hc
    have hz : remaining_time now s ≤ 0 := max_le (le_refl 0) (by linarith)
    exact absurd hz (not_le.mpr hdl)
  by_cases hmax : MAX_QUESTIONS ≤ s.count + 1 <;>
    simp [step, handleUserMessage, hdl2, hph, not_le.mpr hcnt, hne, hmax,
      send_state, remaining_time]

/-- Witness for C6 on a fresh session with a non-blank message. -/
theorem gpt_failure_bookkeeping_witness :
    Outbound.ai GPT_FAIL_MSG ∈
      (step 0 none (get_session 0) (Inbound.user_message (some "hi"))).outputs ∧
    "gpt_error" ∈
      (step 0 none (get_session 0) (Inbound.user_message (some "hi"))).logs ∧
    (step 0 none (get_session 0) (Inbound.user_message (some "hi"))).session.count =
      (get_session 0).count + 1 ∧
    send_state 0 (step 0 none (get_session 0) (Inbound.user_message (some "hi"))).session ∈
      (step 0 none (get_session 0) (Inbound.user_message (some "hi"))).outputs ∧
    (step 0 none (get_session 0) (Inbound.user_message (some "hi"))).session.phase =
      (if MAX_QUESTIONS ≤ (get_session 0).count + 1 then Phase.followup else Phase.qa) ∧
    (step 0 (some "ok") (get_session 0) (Inbound.user_message (some "hi"))).session.count =
      (step 0 none (get_session 0) (Inbound.user_message (some "hi"))).session.count ∧
    (step 0 (some "ok") (get_session 0) (Inbound.user_message (some "hi"))).session.phase =
      (step 0 none (get_session 0) (Inbound.user_message (some "hi"))).session.phase :=
  gpt_failure_bookkeeping 0 "ok" (get_session 0) (some "hi")
    rfl (by decide) (by decide) (by decide)

lemma handleUserMessage_snapshot (now : Int) (gpt : Option String)
    (s : Session) (txt : Option String) :
    send_state now (handleUserMessage now gpt s txt).session ∈
      (handleUserMessage now gpt s txt).outputs := by
  cases gpt <;> simp only [handleUserMessage] <;> split_ifs <;>
    simp [send_state, remaining_time]

lemma handleFollowup_snapshot (now : Int) (s : Session) (txt : Option String) :
    send_state now (handleFollowup now s txt).session ∈
      (handleFollowup now s txt).outputs := by
  simp only [handleFollowup]
  split_ifs <;> simp [send_state, remaining_time]

/-- C7 (amended): every branch of the dispatch loop emits a fresh state
snapshot of the session it leaves behind among its outbound events — though
not always as the final outbound event. -/
theorem fresh_snapshot_always_emitted (now : Int) (gpt : Option String)
    (s : Session) (m : Inbound) :
    send_state now (step now gpt s m).session ∈ (step now gpt s m).outputs := by
  unfold step
  split
  · simp [send_state, remaining_time]
  · cases m with
    | hello => simp
    | user_message txt => exact handleUserMessage_snapshot now gpt s txt
    | followup_answer txt => exact handleFollowup_snapshot now s txt
    | question qid => simp [handleOther]
    | exit => simp
    | unknown raw => simp [handleOther]

/-- C7 counterexample: in the quota-exhausted branch the snapshot is
followed by the transition notice, so the final outbound event of that
branch is an `ai` frame, not a state snapshot. -/
theorem final_event_not_snapshot :
    (((step 0 none { start_ts := 0, count := 3, phase := Phase.qa, history := [] }
        (Inbound.user_message none)).outputs.getLast?).map isState) = some false := by
  decide

/-- C8 (amended): an action not permitted in the current phase is rejected
without closing the connection and without mutating the session, and a
fresh snapshot is sent; a `user_message` outside qa additionally gets a
user-visible notice, while a `followup_answer` outside followup is dropped
with only the snapshot and no notice. -/
theorem phase_violation_rejections (now : Int) (gpt : Option String)
    (s : Session) (txt : Option String) (hdl : 0 < remaining_time now s) :
    (s.phase ≠ Phase.qa →
      step now gpt s (Inbound.user_message txt) =
        { session := s,
          outputs := [Outbound.ai BLOCKED_PHASE_MSG, send_state now s],
          logs := ["blocked_message_phase"],
          closed := false }) ∧
    (s.phase ≠ Phase.followup →
      step now gpt s (Inbound.followup_answer txt) =
        { session := s,
          outputs := [send_state now s],
          logs := ["blocked_followup_phase"],
          closed := false }) := by
  have h1 : ¬(remaining_time now s ≤ 0 ∧ s.phase ≠ Phase.done) :=
    fun hc => absurd hc.1 (not_le.mpr hdl)
  constructor
  · intro hq
    simp [step, handleUserMessage, h1, hq]
  · intro hf
    simp [step, handleFollowup, h1, hf]

/-- Witness for C8: a `followup_answer` sent while still in qa. -/
theorem phase_violation_rejections_witness :
    step 0 none (get_session 0) (Inbound.followup_answer (some "note")) =
      { session := get_session 0,
        outputs := [send_state 0 (get_session 0)],
        logs := ["blocked_followup_phase"],
        closed := false } :=
  (phase_violation_rejections 0 none (get_session 0) (some "note")
    (by decide)).2 (by decide)

/-- C8 counterexample: a `followup_answer` rejected in qa produces no
user-visible `ai` notice at all — the only outbound event is the state
snapshot, refuting "reject with a notice" for this action. -/
theorem followup_reject_has_no_notice :
    (step 0 none (get_session 0) (Inbound.followup_answer (some "의견"))).outputs =
      [Outbound.state Phase.qa MAX_QUESTIONS TIME_LIMIT_SECONDS] := by
  decide

/-- C9: a `question` envelope — the dispatch loop has no branch for it, so
any id takes the generic fallback path — yields the fixed reply and a
snapshot, and leaves every field of the session (counter, phase, history,
start timestamp) unchanged; since the session is unchanged, resending it
any number of times yields the same reply every time. -/
theorem question_fixed_reply_no_mutation (now : Int) (gpt : Option String)
    (s : Session) (qid : Option String) (hdl : 0 < remaining_time now s) :
    step now gpt s (Inbound.question qid) =
      { session := s,
        outputs := [Outbound.ai UNKNOWN_MSG, send_state now s],
        logs := ["unknown_input"],
        closed := false } := by
  have h1 : ¬(remaining_time now s ≤ 0 ∧ s.phase ≠ Phase.done) :=
    fun hc => absurd hc.1 (not_le.mpr hdl)
  simp [step, handleOther, h1]

/-- Witness for C9 with an unknown question id on a fresh session. -/
theorem question_fixed_reply_no_mutation_witness :
    step 0 none (get_session 0) (Inbound.question (some "q999")) =
      { session := get_session 0,
        outputs := [Outbound.ai UNKNOWN_MSG, send_state 0 (get_session 0)],
        logs := ["unknown_input"],
        closed := false } :=
  question_fixed_reply_no_mutation 0 none (get_session 0) (some "q999")
    (by decide)

/-- C10: a `user_message` in qa below quota, or a `followup_answer` in
followup, whose text is absent, empty, or whitespace-only after the length
cap and strip, is silently dropped: no reply, no typing event, no log, no
counter increment, no phase or history change — the only outbound event is
a fresh state snapshot, so an empty follow-up answer does not complete the
followup → done transition. -/
theorem blank_text_silently_dropped (now : Int) (gpt : Option String)
    (s : Session) (txt : Option String) (hdl : 0 < remaining_time now s) :
    (s.phase = Phase.qa → s.count < MAX_QUESTIONS →
      pyStrip (truncate 2000 (txt.getD "")) = "" →
      step now gpt s (Inbound.user_message txt) =
        { session := s, outputs := [send_state now s], logs := [], closed := false }) ∧
    (s.phase = Phase.followup → pyStrip (truncate 4000 (txt.getD "")) = "" →
      step now gpt s (Inbound.followup_answer txt) =
        { session := s, outputs := [send_state now s], logs := [], closed := false }) := by
  have h1 : ¬(remaining_time now s ≤ 0 ∧ s.phase ≠ Phase.done) :=
    fun hc => absurd hc.1 (not_le.mpr hdl)
  constructor
  · intro hq hc he
    simp [step, handleUserMessage, h1, hq, not_le.mpr hc, he, hdl]
  · intro hf he
    simp [step, handleFollowup, h1, hf, he, hdl]

/-- Witness for C10: a whitespace-only message on a fresh qa session. -/
theorem blank_text_silently_dropped_witness :
    step 0 none (get_session 0) (Inbound.user_message (some "   ")) =
      { session := get_session 0,
        outputs := [send_state 0 (get_session 0)],
        logs := [],
        closed := false } :=
  (blank_text_silently_dropped 0 none (get_session 0) (some "   ")
    (by decide)).1 rfl (by decide) (by decide)

end Spokesperson
